import Mathlib

/-!
# Verification of the seo-automation Resource Pool and Job Scheduler core

Shallow embedding of `BrowserPool` (src/unnamed/part_000) and
`TaskScheduler` (src/core/TaskScheduler.ts) together with
`validateTaskConfig` (src/config/validators.ts).

Modelling conventions:
* The JavaScript event loop runs each `async` operation here as an atomic
  step (every `await` in the source resolves without interleaving); all
  counterexamples below already arise in this purely sequential semantics.
* External effects that the bookkeeping does not depend on (launching the
  real browser, clearing cookies, logging, event emission, the database
  driver) are assumed to succeed, so they are dropped from the state.
* A `Browser` object belongs to exactly one `BrowserWrapper` (each wrapper
  launches its own browser), so a browser handle is identified with its
  wrapper's id; ids come from a fresh-name counter standing in for `uuidv4`.
* Clock values (`Date.now()`, `getTime()`) are integers of milliseconds.
-/

set_option maxRecDepth 100000

namespace SeoAuto

/-! ## BrowserPool state (src/unnamed/part_000, lines 24-47) -/

/-- `BrowserWrapper` (lines 24-34).  `browser`/`context`/`profile`/`proxy`
are external handles; the browser handle is the wrapper's `id`. -/
structure BrowserWrapper where
  id : Nat
  createdAt : Int
  lastUsed : Int
  tasksCompleted : Nat
  inUse : Bool
  deriving Repr, DecidableEq

/-- The private fields of `BrowserPool` (lines 36-42).  `browsers` is the
`Map<string, BrowserWrapper>` in insertion order (keys are the wrapper ids,
kept distinct by the `nextId` counter), `availableBrowsers` the id list with
its head at the front (`shift` pops the head, `push` appends),
`browserQueue` the FIFO list of suspended callers of `waitForBrowser`. -/
structure PoolState where
  browsers : List BrowserWrapper
  availableBrowsers : List Nat
  browserQueue : List Nat
  isShuttingDown : Bool
  nextId : Nat
  deriving Repr, DecidableEq

/-- The empty pool produced by the `BrowserPool` constructor (lines 44-47). -/
def PoolState.empty : PoolState :=
  { browsers := [], availableBrowsers := [], browserQueue := [],
    isShuttingDown := false, nextId := 0 }

/-- `this.browsers.get(id)` (the map is keyed by wrapper id). -/
def PoolState.getWrapper (s : PoolState) (id : Nat) : Option BrowserWrapper :=
  s.browsers.find? (fun w => w.id == id)

/-- In-place mutation of the wrapper object shared by the map and both id
lists: replace the entry whose id matches. -/
def PoolState.setWrapper (s : PoolState) (w' : BrowserWrapper) : PoolState :=
  { s with browsers := s.browsers.map (fun w => if w.id == w'.id then w' else w) }

/-- `createBrowser` (lines 174-232), launch assumed to succeed: allocate a
fresh id, register the wrapper in `browsers` and push its id onto
`availableBrowsers` (lines 209-221). -/
def createBrowser (now : Int) (s : PoolState) : BrowserWrapper × PoolState :=
  let w : BrowserWrapper :=
    { id := s.nextId, createdAt := now, lastUsed := now,
      tasksCompleted := 0, inUse := false }
  (w, { s with browsers := s.browsers ++ [w],
                availableBrowsers := s.availableBrowsers ++ [w.id],
                nextId := s.nextId + 1 })

/-- `n` consecutive successful `createBrowser` calls (the loops in
`initialize` line 54 and in maintenance line 451). -/
def createN (now : Int) : Nat → PoolState → PoolState
  | 0, s => s
  | n + 1, s => createN now n (createBrowser now s).2

/-- `initialize` (lines 49-62): create `min(maxBrowsers, 5)` browsers in the
empty pool (maintenance is started separately, modelled by explicit
`maintenanceTick` steps). -/
def initializePool (now : Int) (maxBrowsers : Nat) : PoolState :=
  createN now (Nat.min maxBrowsers 5) PoolState.empty

/-- `getAvailableBrowser` (lines 395-402): `shift` the front id (if any) and
look it up; a dangling id yields `null` with the id already consumed. -/
def getAvailableBrowser (s : PoolState) : Option BrowserWrapper × PoolState :=
  match s.availableBrowsers with
  | [] => (none, s)
  | id :: rest =>
      ((s.getWrapper id), { s with availableBrowsers := rest })

/-- Outcome of one `acquireBrowser` call. -/
inductive AcquireResult where
  /-- the call returned `wrapper.browser`; the field is the wrapper's id -/
  | acquired (browserId : Nat)
  /-- the call suspended inside `waitForBrowser` (line 97) -/
  | blocked
  /-- `BrowserError('BrowserPool is shutting down')` (line 85) -/
  | shuttingDownError
  deriving Repr, DecidableEq

/-- The tail of `acquireBrowser` (lines 101-110): configure, mark the
wrapper in use, stamp `lastUsed`, return its browser. -/
def finishAcquire (now : Int) (w : BrowserWrapper) (s : PoolState) :
    AcquireResult × PoolState :=
  let w' := { w with inUse := true, lastUsed := now }
  (.acquired w'.id, s.setWrapper w')

/-- `acquireBrowser` (lines 83-111).  `caller` identifies the requester so
that a blocked call can be queued on `browserQueue`.  When
`getAvailableBrowser` yields `null` (empty list, or a popped id whose
wrapper is gone — the popped id is consumed either way), the call creates a
browser if under the limit and otherwise suspends in `waitForBrowser`
(lines 91-99). -/
def acquireBrowser (now : Int) (maxBrowsers : Nat) (caller : Nat)
    (s : PoolState) : AcquireResult × PoolState :=
  if s.isShuttingDown then (.shuttingDownError, s)
  else
    match getAvailableBrowser s with
    | (some w, s1) => finishAcquire now w s1
    | (none, s1) =>
        if s1.browsers.length < maxBrowsers then
          let (w, s2) := createBrowser now s1
          finishAcquire now w s2
        else
          (.blocked, { s1 with browserQueue := s1.browserQueue ++ [caller] })

/-- `closeBrowser` (lines 366-382): drop the wrapper from the map and filter
its id out of `availableBrowsers`; unknown ids are ignored. -/
def closeBrowser (id : Nat) (s : PoolState) : PoolState :=
  match s.getWrapper id with
  | none => s
  | some _ =>
      { s with browsers := s.browsers.filter (fun w => w.id ≠ id),
               availableBrowsers := s.availableBrowsers.filter (fun bid => bid ≠ id) }

/-- `recycleBrowser` (lines 384-393): close, then create a replacement when
not shutting down and under the limit. -/
def recycleBrowser (now : Int) (maxBrowsers : Nat) (id : Nat)
    (s : PoolState) : PoolState :=
  let s1 := closeBrowser id s
  if ¬s1.isShuttingDown ∧ s1.browsers.length < maxBrowsers then
    (createBrowser now s1).2
  else s1

/-- `shouldRecycleBrowser` (lines 414-425): age above one hour or 50 tasks. -/
def shouldRecycleBrowser (now : Int) (w : BrowserWrapper) : Bool :=
  (3600000 < now - w.createdAt) || (50 ≤ w.tasksCompleted)

/-- Outcome of one `releaseBrowser` call. -/
inductive ReleaseOutcome where
  /-- `findWrapperByBrowser` failed: warn and return (lines 115-118) -/
  | unknownBrowser
  /-- the recycling branch ran (line 129) -/
  | recycled
  /-- the wrapper was pushed onto `availableBrowsers`; when a waiter was
  queued it was resumed with this wrapper (`handedTo` is its caller id) -/
  | returnedToPool (handedTo : Option Nat)
  deriving Repr, DecidableEq

/-- `releaseBrowser` (lines 113-141).  `browserId` is the handle the caller
got from `acquireBrowser`; `findWrapperByBrowser` (lines 410-412) is lookup
by that id.  When a queued waiter receives the wrapper, its suspended
`acquireBrowser` continuation (lines 101-110) runs: the wrapper is
configured, marked in use and stamped — but its id, pushed on line 131,
stays on `availableBrowsers`. -/
def releaseBrowser (now : Int) (maxBrowsers : Nat) (browserId : Nat)
    (s : PoolState) : ReleaseOutcome × PoolState :=
  match s.browsers.find? (fun w => w.id == browserId) with
  | none => (.unknownBrowser, s)
  | some w =>
      let w1 := { w with inUse := false, tasksCompleted := w.tasksCompleted + 1 }
      let s1 := s.setWrapper w1
      -- clearBrowserState touches only the browser's own session, not the pool
      if 50 ≤ w1.tasksCompleted || shouldRecycleBrowser now w1 then
        (.recycled, recycleBrowser now maxBrowsers w1.id s1)
      else
        let s2 := { s1 with availableBrowsers := s1.availableBrowsers ++ [w1.id] }
        match s2.browserQueue with
        | [] => (.returnedToPool none, s2)
        | c :: rest =>
            let w2 := { w1 with inUse := true, lastUsed := now }
            (.returnedToPool (some c),
             ({ s2 with browserQueue := rest } : PoolState).setWrapper w2)

/-- The maintenance callback (lines 427-467) on a tick where every health
probe succeeds (so no probe-triggered recycling): top the pool up when the
available count is below the `min(3, maxBrowsers)` watermark and the total
is below the limit — creating `minAvailable - availableCount` browsers with
no per-creation re-check of the limit (lines 445-454). -/
def maintenanceTick (now : Int) (maxBrowsers : Nat) (s : PoolState) : PoolState :=
  let availableCount := s.availableBrowsers.length
  let minAvailable := Nat.min 3 maxBrowsers
  if availableCount < minAvailable ∧ s.browsers.length < maxBrowsers then
    createN now (minAvailable - availableCount) s
  else s

/-! ## TaskScheduler data model (src/types/index.ts, src/config/constants.ts) -/

/-- `TaskStatus` (types/index.ts lines 219-226). -/
inductive TaskStatus where
  | pending | scheduled | running | completed | failed | cancelled
  deriving Repr, DecidableEq

/-- `TaskType` (types/index.ts lines 208-217). -/
inductive TaskType where
  | warmup | search | targetVisit | organicBrowse
  | videoWatch | newsReading | shopping | socialActivity
  deriving Repr, DecidableEq

/-- `TaskSchedule` (types/index.ts lines 278-286), with the variant-relevant
field attached to each `type` tag; times are epoch milliseconds. -/
inductive TaskSchedule where
  | immediate
  | scheduledAt (scheduledFor : Int)
  | distributed (windowStart windowEnd : Int)
  | cron (expr : String)
  deriving Repr, DecidableEq

/-- Payload for the `search` schema (validators.ts lines 57-65). -/
structure SearchConfig where
  engine : String
  query : String
  targetUrl : Option String := none
  targetDomain : Option String := none
  maxResultPages : Option Int := none
  region : Option String := none
  language : Option String := none
  deriving Repr, DecidableEq

/-- `duration` object of the `target_visit` schema (lines 70-79). -/
structure DurationRange where
  min : Int
  max : Int
  deriving Repr, DecidableEq

/-- An item of `target_visit.actions` (lines 80-86). -/
structure TargetAction where
  actionType : String
  selector : Option String := none
  probability : Option ℚ := none
  required : Option Bool := none
  deriving Repr, DecidableEq

/-- An item of `target_visit.goals` (lines 87-91). -/
structure TargetGoal where
  goalType : String
  required : Option Bool := none
  deriving Repr, DecidableEq

/-- Payload for the `target_visit` schema (lines 68-92). -/
structure TargetConfig where
  url : String
  referrer : Option String := none
  duration : Option DurationRange := none
  actions : Option (List TargetAction) := none
  goals : Option (List TargetGoal) := none
  deriving Repr, DecidableEq

/-- Payload for the `organic_browse` schema (lines 94-100). -/
structure OrganicConfig where
  categories : List String
  duration : Option Int := none
  sites : Option (List String) := none
  deriving Repr, DecidableEq

/-- Payload for the `warmup` schema (lines 102-106). -/
structure WarmupConfig where
  day : Int
  activity : String
  duration : Option Int := none
  deriving Repr, DecidableEq

/-- A task `config` payload: which section is populated tells which schema
the payload is shaped for (`TaskConfig`, types/index.ts lines 245-276). -/
inductive TaskConfigData where
  | searchCfg (c : SearchConfig)
  | targetCfg (c : TargetConfig)
  | organicCfg (c : OrganicConfig)
  | warmupCfg (c : WarmupConfig)
  deriving Repr, DecidableEq

/-- `Task` (types/index.ts lines 228-243); `config` is `none` when the
submission carried no config object (Joi accepts that). -/
structure Task where
  id : String
  ty : TaskType
  profileId : String
  priority : Int
  status : TaskStatus
  config : Option TaskConfigData
  schedule : TaskSchedule
  attempts : Nat
  createdAt : Int
  startedAt : Option Int := none
  completedAt : Option Int := none
  error : Option String := none
  resultSuccess : Option Bool := none
  deriving Repr, DecidableEq

/-- Every throw site reachable from the modelled TaskScheduler entry points. -/
inductive SchedError where
  /-- validators.ts line 200: no schema for the type -/
  | unknownTaskType (ty : TaskType)
  /-- validators.ts line 209: the schema rejected the payload -/
  | invalidTaskConfig
  /-- TaskScheduler.ts line 116: auto-assignment found no profile -/
  | noHealthyProfiles
  /-- `task.config.search` dereference with `config` undefined
  (TaskScheduler.ts line 521) raises a TypeError -/
  | undefinedConfigAccess
  /-- TaskScheduler.ts line 175 -/
  | taskNotFound (id : String)
  /-- TaskScheduler.ts line 179 -/
  | onlyFailedTasksRetryable
  deriving Repr, DecidableEq

/-! ## validateTaskConfig (src/config/validators.ts lines 55-106, 197-214)

Joi's `uri()` and `hostname()` format tests live inside the Joi library, so
they are parameters (`uriOk`, `hostnameOk`); every structural rule of the
schemas is modelled.  `stripUnknown` means a payload shaped for a different
schema loses all its keys, and the schema's `required` fields then fail. -/

/-- `actions[].type` whitelist (validators.ts line 81). -/
def validActionTypes : List String :=
  ["click", "scroll", "hover", "input", "wait", "navigate"]

/-- `goals[].type` whitelist (validators.ts line 88). -/
def validGoalTypes : List String :=
  ["pageview", "event", "conversion", "duration", "depth"]

/-- category/activity whitelist (validators.ts lines 96, 104). -/
def validCategories : List String :=
  ["news", "weather", "maps", "video", "shopping", "social"]

def checkOpt (f : α → Bool) : Option α → Bool
  | none => true
  | some a => f a

/-- The `search` schema checks (lines 57-65): engine whitelist, query length
1..500, optional uri/hostname fields, `maxResultPages` in 1..10, and the
`.or('targetUrl', 'targetDomain')` rule. -/
def validSearch (uriOk hostnameOk : String → Bool) (c : SearchConfig) : Bool :=
  ["yandex", "google"].contains c.engine
  && 1 ≤ c.query.length && c.query.length ≤ 500
  && checkOpt uriOk c.targetUrl
  && checkOpt hostnameOk c.targetDomain
  && checkOpt (fun n => 1 ≤ n && n ≤ 10) c.maxResultPages
  && (c.targetUrl.isSome || c.targetDomain.isSome)

/-- `search` defaults: `maxResultPages` defaults to 5 (line 61). -/
def applySearchDefaults (c : SearchConfig) : SearchConfig :=
  { c with maxResultPages := some (c.maxResultPages.getD 5) }

/-- One `target_visit` action item (lines 80-86). -/
def validTargetAction (a : TargetAction) : Bool :=
  validActionTypes.contains a.actionType
  && checkOpt (fun p => 0 ≤ p && p ≤ 1) a.probability

/-- The `target_visit` schema checks (lines 68-92): required uri `url`,
optional uri `referrer`, optional `duration` object whose bounds are
≥ 30000 with the custom `min ≤ max` rule, and the item rules for the
defaulted `actions`/`goals` arrays. -/
def validTargetVisit (uriOk : String → Bool) (c : TargetConfig) : Bool :=
  uriOk c.url
  && checkOpt uriOk c.referrer
  && checkOpt (fun d => 30000 ≤ d.min && 30000 ≤ d.max && d.min ≤ d.max) c.duration
  && (c.actions.getD []).all validTargetAction
  && (c.goals.getD []).all (fun g => validGoalTypes.contains g.goalType)

/-- `target_visit` defaults (lines 84-85, 89-90): arrays default to `[]`,
`probability` to 1, action `required` to `false`, goal `required` to `true`. -/
def applyTargetDefaults (c : TargetConfig) : TargetConfig :=
  { c with
    actions := some ((c.actions.getD []).map (fun a =>
      { a with probability := some (a.probability.getD 1),
               required := some (a.required.getD false) })),
    goals := some ((c.goals.getD []).map (fun g =>
      { g with required := some (g.required.getD true) })) }

/-- The `organic_browse` schema checks (lines 94-100). -/
def validOrganic (uriOk : String → Bool) (c : OrganicConfig) : Bool :=
  c.categories.all validCategories.contains
  && 1 ≤ c.categories.length
  && checkOpt (fun d => 60000 ≤ d) c.duration
  && checkOpt (fun l => l.all uriOk) c.sites

/-- `organic_browse` default: `duration` defaults to 180000 (line 98). -/
def applyOrganicDefaults (c : OrganicConfig) : OrganicConfig :=
  { c with duration := some (c.duration.getD 180000) }

/-- The `warmup` schema checks (lines 102-106). -/
def validWarmup (c : WarmupConfig) : Bool :=
  1 ≤ c.day && c.day ≤ 30
  && validCategories.contains c.activity
  && checkOpt (fun d => 30000 ≤ d) c.duration

/-- `warmup` default: `duration` defaults to 120000 (line 105). -/
def applyWarmupDefaults (c : WarmupConfig) : WarmupConfig :=
  { c with duration := some (c.duration.getD 120000) }

/-- `validateTaskConfig` (validators.ts lines 197-214): look the schema up
by task type (only four types have one), then run Joi validation.  An
absent config object passes every object schema (Joi objects are optional
by default); a payload shaped for another schema is stripped to nothing and
fails its `required` rules. -/
def validateTaskConfig (uriOk hostnameOk : String → Bool) (ty : TaskType)
    (cfg : Option TaskConfigData) : Except SchedError (Option TaskConfigData) :=
  match ty with
  | .search =>
      match cfg with
      | none => .ok none
      | some (.searchCfg c) =>
          if validSearch uriOk hostnameOk c then .ok (some (.searchCfg (applySearchDefaults c)))
          else .error .invalidTaskConfig
      | some _ => .error .invalidTaskConfig
  | .targetVisit =>
      match cfg with
      | none => .ok none
      | some (.targetCfg c) =>
          if validTargetVisit uriOk c then .ok (some (.targetCfg (applyTargetDefaults c)))
          else .error .invalidTaskConfig
      | some _ => .error .invalidTaskConfig
  | .organicBrowse =>
      match cfg with
      | none => .ok none
      | some (.organicCfg c) =>
          if validOrganic uriOk c then .ok (some (.organicCfg (applyOrganicDefaults c)))
          else .error .invalidTaskConfig
      | some _ => .error .invalidTaskConfig
  | .warmup =>
      match cfg with
      | none => .ok none
      | some (.warmupCfg c) =>
          if validWarmup c then .ok (some (.warmupCfg (applyWarmupDefaults c)))
          else .error .invalidTaskConfig
      | some _ => .error .invalidTaskConfig
  | other => .error (.unknownTaskType other)

/-! ## TaskScheduler operations (src/core/TaskScheduler.ts) -/

/-- What the scheduler reads from a profile: `getHealthyProfiles(70)`
results carry `id`, `identity.location.region` and `lastActive`. -/
structure Profile where
  id : String
  region : String
  lastActive : Int
  deriving Repr, DecidableEq

/-- The per-call environment of a scheduler operation: the Joi format
testers, the identity-provider collaborator's answer
(`profileManager.getHealthyProfiles(70)`), `config.TASK_RETRY_ATTEMPTS`,
the clock, the `Math.random()` draw and the `uuidv4` fresh name. -/
structure SchedEnv where
  uriOk : String → Bool
  hostnameOk : String → Bool
  healthyProfiles : List Profile
  retryAttempts : Nat
  now : Int
  rand : ℚ
  uuid : Nat

/-- `Bull.JobOptions` as built by `scheduleTask` (lines 223-226 plus the
per-branch `delay`/`repeat` additions). -/
structure JobOptions where
  priority : Int
  attempts : Nat
  delay : Option ℚ := none
  repeatCron : Option String := none
  deriving Repr, DecidableEq

/-- One Bull queue entry: `queue.add(task, opts)` stores the task as the
job's data; Bull assigns the auto-incremented numeric job id itself. -/
structure QueueEntry where
  entryId : Nat
  task : Task
  opts : JobOptions
  deriving Repr, DecidableEq

/-- The Bull queue: entries in admission order plus the id counter. -/
structure Queue where
  entries : List QueueEntry
  nextEntryId : Nat
  deriving Repr, DecidableEq

def Queue.empty : Queue := { entries := [], nextEntryId := 0 }

def Queue.enqueue (q : Queue) (t : Task) (opts : JobOptions) : Queue :=
  { entries := q.entries ++ [{ entryId := q.nextEntryId, task := t, opts := opts }],
    nextEntryId := q.nextEntryId + 1 }

/-- The job options `scheduleTask` (lines 222-256) computes for a task:
immediate adds no delay; `scheduled` uses `scheduledFor.getTime() - Date.now()`
with no clamping; `distributed` samples `Math.random() * windowSize`, adds
`windowStart` and clamps the distance from now at 0; `cron` sets the repeat
rule. -/
def jobOptionsFor (retryAttempts : Nat) (now : Int) (rand : ℚ) (t : Task) :
    JobOptions :=
  let base : JobOptions := { priority := t.priority, attempts := retryAttempts }
  match t.schedule with
  | .immediate => base
  | .scheduledAt sf => { base with delay := some ((sf - now : Int) : ℚ) }
  | .distributed ws we =>
      let windowSize : Int := we - ws
      let randomDelay : ℚ := rand * (windowSize : ℚ)
      let scheduledTime : ℚ := (ws : ℚ) + randomDelay
      let delayMs : ℚ := max 0 (scheduledTime - (now : ℚ))
      { base with delay := some delayMs }
  | .cron c => { base with repeatCron := some c }

/-- `scheduleTask` (lines 222-256): one `queue.add` with the computed
options. -/
def scheduleTask (retryAttempts : Nat) (now : Int) (rand : ℚ) (t : Task)
    (q : Queue) : Queue :=
  q.enqueue t (jobOptionsFor retryAttempts now rand t)

/-- `suitable.sort((a, b) => a.lastActive - b.lastActive)[0]` — the head of
the stably sorted list is the leftmost profile with minimal `lastActive`. -/
def leastActive : List Profile → Option Profile
  | [] => none
  | p :: ps => some (ps.foldl (fun best q => if q.lastActive < best.lastActive then q else best) p)

/-- `selectBestProfile` (lines 510-533): empty collaborator answer gives
`null`; otherwise `task.config.search?.region` (a TypeError if `config` is
undefined; no filter when the region is absent, empty, or the config is for
another type) filters by region, and the least recently active suitable
profile (or `undefined` when the filter leaves none) is returned. -/
def selectBestProfile (cfg : Option TaskConfigData) (profiles : List Profile) :
    Except SchedError (Option Profile) :=
  if profiles.isEmpty then .ok none
  else
    match cfg with
    | none => .error .undefinedConfigAccess
    | some c =>
        let suitable :=
          match c with
          | .searchCfg sc =>
              match sc.region with
              | some r => if r ≠ "" then profiles.filter (fun p => p.region == r) else profiles
              | none => profiles
          | _ => profiles
        .ok (leastActive suitable)

/-- The scheduler's durable and queued state. -/
structure SchedState where
  store : List Task
  queue : Queue
  deriving Repr, DecidableEq

/-- `taskData.priority || CONSTANTS.QUEUE_PRIORITY.NORMAL` (line 104):
JavaScript `||` also replaces an explicit 0. -/
def priorityOrNormal : Option Int → Int
  | none => 5
  | some p => if p == 0 then 5 else p

/-- The caller-supplied `Partial<Task>` fields `createTask` reads. -/
structure TaskInput where
  ty : TaskType
  profileId : Option String := none
  priority : Option Int := none
  config : Option TaskConfigData := none
  schedule : Option TaskSchedule := none

/-- Lines 121-136 of `createTask`: persist (`db.tasks.insertOne`), admit
(`scheduleTask`) and return the task. -/
def persistAndSchedule (env : SchedEnv) (t : Task) (st : SchedState) :
    Except SchedError Task × SchedState :=
  (.ok t,
   { store := st.store ++ [t],
     queue := scheduleTask env.retryAttempts env.now env.rand t st.queue })

/-- The task object literal of `createTask` (lines 100-110): fresh
`task-<uuid>` id, status `PENDING`, zero attempts, the validated config,
and the JavaScript `||` defaults for profile id, priority and schedule. -/
def buildTask (env : SchedEnv) (input : TaskInput)
    (vcfg : Option TaskConfigData) : Task :=
  { id := "task-" ++ toString env.uuid,
    ty := input.ty,
    profileId := input.profileId.getD "",
    priority := priorityOrNormal input.priority,
    status := .pending,
    config := vcfg,
    schedule := input.schedule.getD .immediate,
    attempts := 0,
    createdAt := env.now }

/-- `createTask` (lines 95-137): validate, build the `PENDING` task object,
auto-assign a profile when none was supplied and the type is not warmup
(throwing when none is available), then persist and admit. -/
def createTask (env : SchedEnv) (input : TaskInput) (st : SchedState) :
    Except SchedError Task × SchedState :=
  match validateTaskConfig env.uriOk env.hostnameOk input.ty input.config with
  | .error e => (.error e, st)
  | .ok vcfg =>
      let task := buildTask env input vcfg
      if task.profileId == "" && !(task.ty == .warmup) then
        match selectBestProfile task.config env.healthyProfiles with
        | .error e => (.error e, st)
        | .ok none => (.error .noHealthyProfiles, st)
        | .ok (some p) => persistAndSchedule env { task with profileId := p.id } st
      else
        persistAndSchedule env task st

/-- `db.tasks.findOne({ id })`. -/
def findTask (id : String) (store : List Task) : Option Task :=
  store.find? (fun t => t.id == id)

/-- `db.tasks.updateOne({ id }, { $set: ... })`: rewrite the first matching
record. -/
def updateFirst (p : Task → Bool) (f : Task → Task) : List Task → List Task
  | [] => []
  | t :: ts => if p t then f t :: ts else t :: updateFirst p f ts

/-- `queue.getJob(taskId)` followed by `job.remove()` (lines 163-166).
Bull's auto-assigned job keys are the decimal numerals of `entryId`, while
task ids are `task-<uuid>` strings, so the lookup is by that key. -/
def removeJob (taskId : String) (q : Queue) : Queue :=
  match q.entries.find? (fun e => toString e.entryId == taskId) with
  | some e => { q with entries := q.entries.filter (fun x => x.entryId ≠ e.entryId) }
  | none => q

/-- `cancelTask` (lines 155-170): unconditionally `$set` the status to
`CANCELLED` on the stored record, then remove the queue job if the lookup
finds one.  No status is inspected and nothing throws. -/
def cancelTask (id : String) (st : SchedState) : SchedState :=
  { store := updateFirst (fun t => t.id == id)
      (fun t => { t with status := .cancelled }) st.store,
    queue := removeJob id st.queue }

/-- `retryTask` (lines 172-195): unknown id throws; a non-`FAILED` status
throws; otherwise reset status/attempts both on the fetched object and in
the store, and re-admit the updated object. -/
def retryTask (env : SchedEnv) (id : String) (st : SchedState) :
    Except SchedError Unit × SchedState :=
  match findTask id st.store with
  | none => (.error (.taskNotFound id), st)
  | some t =>
      if !(t.status == .failed) then (.error .onlyFailedTasksRetryable, st)
      else
        let t' := { t with status := .pending, attempts := 0 }
        (.ok (),
         { store := updateFirst (fun x => x.id == id)
             (fun x => { x with status := .pending, attempts := 0 }) st.store,
           queue := scheduleTask env.retryAttempts env.now env.rand t' st.queue })

/-- `updateTaskStatus` (lines 535-551): `$set` the status plus the
conditionally spread timestamp/error fields. -/
def updateTaskStatus (now : Int) (id : String) (status : TaskStatus)
    (err : Option String) (store : List Task) : List Task :=
  updateFirst (fun t => t.id == id)
    (fun t => { t with
      status := status,
      startedAt := if status == .running then some now else t.startedAt,
      completedAt := if status == .completed || status == .failed then some now
                     else t.completedAt,
      error := if status == .failed then err else t.error }) store

/-- `updateTaskResult` (lines 553-564): status from `result.success`, plus
the result and completion time. -/
def updateTaskResult (now : Int) (id : String) (success : Bool)
    (store : List Task) : List Task :=
  updateFirst (fun t => t.id == id)
    (fun t => { t with
      status := if success then .completed else .failed,
      resultSuccess := some success,
      completedAt := some now }) store

/-- The query of `startScheduledTaskProcessor` (lines 656-669): records in
status `SCHEDULED` whose `schedule.scheduledFor` exists and is due. -/
def scheduledScan (now : Int) (store : List Task) : List Task :=
  store.filter (fun t =>
    t.status == .scheduled &&
    (match t.schedule with
     | .scheduledAt sf => decide (sf ≤ now)
     | _ => false))

/-- The store-writing scheduler operations: submission (`createTask`),
cancellation, explicit retry, and the two write paths of `processTask` —
`updateTaskStatus` is only ever invoked with `RUNNING` (line 270) or
`FAILED` (line 340), and `updateTaskResult` (line 312) derives the status
from the result. -/
inductive SchedOp where
  | create (env : SchedEnv) (input : TaskInput)
  | cancel (id : String)
  | retry (env : SchedEnv) (id : String)
  | markRunning (now : Int) (id : String)
  | markFailedFinal (now : Int) (id : String) (err : String)
  | recordResult (now : Int) (id : String) (success : Bool)

def applyOp (st : SchedState) : SchedOp → SchedState
  | .create env input => (createTask env input st).2
  | .cancel id => cancelTask id st
  | .retry env id => (retryTask env id st).2
  | .markRunning now id =>
      { st with store := updateTaskStatus now id .running none st.store }
  | .markFailedFinal now id err =>
      { st with store := updateTaskStatus now id .failed (some err) st.store }
  | .recordResult now id success =>
      { st with store := updateTaskResult now id success st.store }

def applyOps (ops : List SchedOp) (st : SchedState) : SchedState :=
  ops.foldl applyOp st

/-! ## Concrete scenario states referenced by the theorems -/

/-- A run of completed `acquireBrowser` calls by the listed callers. -/
def acquireSeq (now : Int) (maxB : Nat) (callers : List Nat) (s : PoolState) : PoolState :=
  callers.foldl (fun st c => (acquireBrowser now maxB c st).2) s

/-- `n` acquire/release round trips on the browser with the given id. -/
def acqRelCycles (now : Int) (maxB : Nat) (browserId : Nat) :
    Nat → PoolState → PoolState
  | 0, s => s
  | n + 1, s =>
      acqRelCycles now maxB browserId n
        (releaseBrowser now maxB browserId (acquireBrowser now maxB 0 s).2).2

/-- Pool of max size 6 after `initialize` (which creates 5 browsers) and
five completed acquisitions: all five browsers leased, none available. -/
def poolSixAfterFive : PoolState :=
  acquireSeq 0 6 [1, 2, 3, 4, 5] (initializePool 0 6)

/-- Pool of max size 1 whose single browser has completed 49 tasks. -/
def poolOneWorn : PoolState := acqRelCycles 0 1 0 49 (initializePool 0 1)

/-- `poolOneWorn` after caller 200 leased the browser and caller 201
blocked in `waitForBrowser` (the pool is at its max of 1). -/
def poolOneWithWaiter : PoolState :=
  (acquireBrowser 0 1 201 (acquireBrowser 0 1 200 poolOneWorn).2).2

def demoId : String := "t1"

def constTrue : String → Bool := fun _ => true

/-- A stored job currently being executed. -/
def demoRunningTask : Task :=
  { id := demoId, ty := .search, profileId := "p1", priority := 5,
    status := .running, config := none, schedule := .immediate,
    attempts := 0, createdAt := 0 }

/-- A stored job whose attempts are exhausted. -/
def demoFailedTask : Task :=
  { demoRunningTask with status := .failed, attempts := 3 }

def demoStRunning : SchedState := { store := [demoRunningTask], queue := Queue.empty }

def demoStFailed : SchedState := { store := [demoFailedTask], queue := Queue.empty }

/-- A payload satisfying the `search` schema. -/
def demoSearchConfig : SearchConfig :=
  { engine := "yandex", query := "buy shoes", targetDomain := some "example.com" }

def demoSearchInput : TaskInput :=
  { ty := .search, config := some (.searchCfg demoSearchConfig) }

/-- The same payload with an engine outside the whitelist. -/
def demoBadSearchInput : TaskInput :=
  { ty := .search, config := some (.searchCfg { demoSearchConfig with engine := "bing" }) }

def demoProfile : Profile := { id := "prof1", region := "Moscow", lastActive := 10 }

def mkEnv (profiles : List Profile) : SchedEnv :=
  { uriOk := constTrue, hostnameOk := constTrue, healthyProfiles := profiles,
    retryAttempts := 3, now := 0, rand := 0, uuid := 0 }

def envNoProfiles : SchedEnv := mkEnv []

def envOneProfile : SchedEnv := mkEnv [demoProfile]

def emptySt : SchedState := { store := [], queue := Queue.empty }

/-- A pending job with a fixed-delay schedule. -/
def demoScheduledTask (sf : Int) : Task :=
  { demoRunningTask with schedule := .scheduledAt sf, status := .pending }

/-- A pending job with a distributed-window schedule. -/
def demoDistributedTask (ws we : Int) : Task :=
  { demoRunningTask with schedule := .distributed ws we, status := .pending }

/-- `demoSearchConfig` after validation: the `maxResultPages` default is
filled in. -/
def demoValidatedSearchConfig : SearchConfig :=
  { demoSearchConfig with maxResultPages := some 5 }

/-- The task `createTask envOneProfile demoSearchInput emptySt` builds:
fresh id from uuid 0, auto-assigned profile, validated config with the
`maxResultPages` default filled in. -/
def demoCreatedTask : Task :=
  { id := "task-0", ty := .search, profileId := "prof1", priority := 5,
    status := .pending,
    config := some (.searchCfg demoValidatedSearchConfig),
    schedule := .immediate, attempts := 0, createdAt := 0 }

/-- A stored record's status is anything but `SCHEDULED`. -/
def notScheduled (t : Task) : Bool := !(t.status == .scheduled)

/-! ## Theorems -/

/-- Claim C1 (status: code bug).  The double-lease invariant fails on a
reachable pool: with max size 6, `initialize` creates 5 browsers; after
five acquisitions the sixth caller's `acquireBrowser` creates browser 5 on
demand — `createBrowser` pushes the fresh id onto `availableBrowsers`
(line 221) even though the browser is handed to the creating caller — so
the id stays claimable, and a seventh `acquireBrowser`, with no release in
between, pops it and returns the very same browser to a second caller. -/
theorem acquireBrowser_double_lease_cex :
    (acquireBrowser 0 6 6 poolSixAfterFive).1 = .acquired 5 ∧
    5 ∈ ((acquireBrowser 0 6 6 poolSixAfterFive).2).availableBrowsers ∧
    ((acquireBrowser 0 6 6 poolSixAfterFive).2.getWrapper 5).map
      (fun w => w.inUse) = some true ∧
    (acquireBrowser 0 6 7 (acquireBrowser 0 6 6 poolSixAfterFive).2).1 =
      .acquired 5 := by decide

/-- Claim C2 (status: code bug).  The bounded-size invariant fails on a
reachable pool: with max size 6 and all five initial browsers leased, a
maintenance tick sees 0 available < min(3, 6) and 5 < 6 total, and creates
`3 - 0 = 3` browsers without re-checking the limit per creation
(lines 445-454), leaving the pool tracking 8 > 6 browsers. -/
theorem maintenanceTick_exceeds_max_cex :
    (maintenanceTick 0 6 poolSixAfterFive).browsers.length = 8 ∧
    ¬((maintenanceTick 0 6 poolSixAfterFive).browsers.length ≤ 6) := by decide

/-- Claim C3 (status: code bug).  With max size 1 and the single browser at
49 completed tasks, caller 200 leases it and caller 201 blocks.  The next
release increments the counter to 50, so `releaseBrowser` takes the
recycling branch (line 128) *before* looking at the wait list: the browser
is closed, a replacement goes to `availableBrowsers`, and the queued waiter
201 stays suspended — it is not handed the released Resource. -/
theorem release_starves_waiter_cex :
    (acquireBrowser 0 1 201 (acquireBrowser 0 1 200 poolOneWorn).2).1 = .blocked ∧
    poolOneWithWaiter.browserQueue = [201] ∧
    (poolOneWithWaiter.getWrapper 0).map (fun w => w.tasksCompleted) = some 49 ∧
    (releaseBrowser 0 1 0 poolOneWithWaiter).1 = .recycled ∧
    (releaseBrowser 0 1 0 poolOneWithWaiter).2.browserQueue = [201] ∧
    (releaseBrowser 0 1 0 poolOneWithWaiter).2.availableBrowsers = [1] := by decide

/-- Claim C10 (status: confirmed).  Releasing a browser that no tracked
wrapper corresponds to logs a warning and returns with the whole pool state
— browser map, available list, wait queue, and every wrapper's flags and
counters — unchanged. -/
theorem releaseBrowser_unknown_noop (s : PoolState) (now : Int) (maxB h : Nat)
    (hu : ∀ w ∈ s.browsers, w.id ≠ h) :
    releaseBrowser now maxB h s = (.unknownBrowser, s) := by
  have hfind : s.browsers.find? (fun w => w.id == h) = none := by
    apply List.find?_eq_none.mpr
    intro w hw
    simpa using hu w hw
  simp [releaseBrowser, hfind]

/-- Witness for C10: a pool tracking only browser 0 is untouched by a
release of the unknown handle 7. -/
theorem releaseBrowser_unknown_noop_witness :
    releaseBrowser 3 1 7 (initializePool 0 1) =
      (.unknownBrowser, initializePool 0 1) :=
  releaseBrowser_unknown_noop (initializePool 0 1) 3 1 7 (by decide)

/-- When `find?` hits a record, updating the first match rewrites exactly
that record, provided the update preserves the match predicate. -/
theorem updateFirst_find? (p : Task → Bool) (f : Task → Task)
    (hf : ∀ x, p x = true → p (f x) = true) :
    ∀ (l : List Task) (t : Task), l.find? p = some t →
      (updateFirst p f l).find? p = some (f t) := by
  intro l
  induction l with
  | nil => intro t ht; simp [List.find?] at ht
  | cons a as ih =>
      intro t ht
      cases hpa : p a with
      | true =>
          rw [List.find?_cons_of_pos _ hpa] at ht
          cases ht
          unfold updateFirst
          rw [if_pos hpa]
          exact List.find?_cons_of_pos _ (hf a hpa)
      | false =>
          rw [List.find?_cons_of_neg _ (by simp [hpa])] at ht
          unfold updateFirst
          rw [if_neg (by simp [hpa])]
          rw [List.find?_cons_of_neg _ (by simp [hpa])]
          exact ih t ht

/-- Counterexample to claim C4 as stated: cancelling a RUNNING job does not
leave its stored status unchanged — the store afterwards says CANCELLED. -/
theorem cancelTask_overwrites_running_cex :
    demoRunningTask.status = .running ∧
    (findTask demoId (cancelTask demoId demoStRunning).store).map
      (fun t => t.status) = some .cancelled := by decide

/-- Claim C4 (amended): `cancelTask` unconditionally `$set`s the stored
status to CANCELLED, whatever the current status (RUNNING, COMPLETED and
FAILED included); it inspects nothing and raises no error (it is a total
operation on the state), and the running execution itself is untouched
(cancel writes only the store and the queue). -/
theorem cancelTask_always_cancels (st : SchedState) (id : String) (t : Task)
    (ht : findTask id st.store = some t) :
    findTask id (cancelTask id st).store =
      some { t with status := .cancelled } := by
  unfold findTask at ht ⊢
  unfold cancelTask
  exact updateFirst_find? (fun x => x.id == id)
    (fun x => { x with status := .cancelled }) (fun x hx => hx) st.store t ht

/-- Witness for the amended C4 at a concrete RUNNING job. -/
theorem cancelTask_always_cancels_witness :
    findTask demoId (cancelTask demoId demoStRunning).store =
      some { demoRunningTask with status := .cancelled } :=
  cancelTask_always_cancels demoStRunning demoId demoRunningTask (by decide)

/-- Counterexample to claim C5 as stated: a fixed-delay job whose
`scheduledFor` (1000) lies before now (2000) is admitted with the negative
delay −1000, not with the claimed clamped delay 0. -/
theorem scheduled_delay_negative_cex :
    (jobOptionsFor 3 2000 0 (demoScheduledTask 1000)).delay =
      some (-1000 : ℚ) ∧ (-1000 : ℚ) < 0 := by
  constructor
  · norm_num [jobOptionsFor, demoScheduledTask, demoRunningTask]
  · norm_num

/-- Claim C5 (amended): a fixed-delay job is admitted with delay exactly
`scheduledFor − now`, with no clamping — the delay is negative whenever
`scheduledFor` lies in the past. -/
theorem scheduled_admission_delay (ra : Nat) (now : Int) (rand : ℚ)
    (t : Task) (sf : Int) (q : Queue) (h : t.schedule = .scheduledAt sf) :
    (scheduleTask ra now rand t q).entries = q.entries ++
      [{ entryId := q.nextEntryId,
         task := t,
         opts := { priority := t.priority,
                   attempts := ra,
                   delay := some ((sf - now : Int) : ℚ) } }] := by
  simp [scheduleTask, Queue.enqueue, jobOptionsFor, h]

/-- Witness for the amended C5 at `scheduledFor = 1000`, `now = 2000`. -/
theorem scheduled_admission_delay_witness :
    (scheduleTask 3 2000 0 (demoScheduledTask 1000) Queue.empty).entries =
      Queue.empty.entries ++
        [{ entryId := Queue.empty.nextEntryId,
           task := demoScheduledTask 1000,
           opts := { priority := (demoScheduledTask 1000).priority,
                     attempts := 3,
                     delay := some ((1000 - 2000 : Int) : ℚ) } }] :=
  scheduled_admission_delay 3 2000 0 (demoScheduledTask 1000) 1000 Queue.empty rfl

/-- Claim C6 (status: confirmed).  A distributed-window job with
`start < end` and a uniform draw `rand ∈ [0, 1)` is admitted with delay
exactly `max 0 ((start + rand·(end − start)) − now)`, and for a submission
made at `now ≤ start` the execution time `now + delay` is the sampled
`start + rand·(end − start)`, which lies in `[start, end)`. -/
theorem distributed_window_delay (ra : Nat) (now : Int) (rand : ℚ)
    (t : Task) (ws we : Int) (h : t.schedule = .distributed ws we)
    (h0 : 0 ≤ rand) (h1 : rand < 1) (hlt : ws < we) :
    (jobOptionsFor ra now rand t).delay =
      some (max 0 (((ws : ℚ) + rand * ((we : ℚ) - (ws : ℚ))) - (now : ℚ))) ∧
    (now ≤ ws →
      (now : ℚ) + ((jobOptionsFor ra now rand t).delay.getD 0) =
        (ws : ℚ) + rand * ((we : ℚ) - (ws : ℚ)) ∧
      (ws : ℚ) ≤ (ws : ℚ) + rand * ((we : ℚ) - (ws : ℚ)) ∧
      (ws : ℚ) + rand * ((we : ℚ) - (ws : ℚ)) < (we : ℚ)) := by
  have hcast : ((we - ws : Int) : ℚ) = (we : ℚ) - (ws : ℚ) := by push_cast; ring
  have hwslt : (0 : ℚ) < (we : ℚ) - (ws : ℚ) := by
    have : (ws : ℚ) < (we : ℚ) := by exact_mod_cast hlt
    linarith
  have hge : (0 : ℚ) ≤ rand * ((we : ℚ) - (ws : ℚ)) :=
    mul_nonneg h0 (le_of_lt hwslt)
  refine ⟨?_, ?_⟩
  · simp [jobOptionsFor, h, hcast]
  · intro hnow
    have hnow' : (now : ℚ) ≤ (ws : ℚ) := by exact_mod_cast hnow
    have hmax : max 0 (((ws : ℚ) + rand * ((we : ℚ) - (ws : ℚ))) - (now : ℚ)) =
        ((ws : ℚ) + rand * ((we : ℚ) - (ws : ℚ))) - (now : ℚ) := by
      apply max_eq_right; linarith
    refine ⟨?_, by linarith, ?_⟩
    · simp only [jobOptionsFor, h]
      simp [hcast, hmax]
    · have hlt' : rand * ((we : ℚ) - (ws : ℚ)) < 1 * ((we : ℚ) - (ws : ℚ)) :=
        mul_lt_mul_of_pos_right h1 hwslt
      linarith

/-- Witness for C6 with window `[0, 2)`, draw 1/2 and `now = 0`: the delay
is 1 and the execution time 1 lies inside the window. -/
theorem distributed_window_delay_witness :
    (jobOptionsFor 3 0 (1 / 2) (demoDistributedTask 0 2)).delay = some 1 := by
  have h := distributed_window_delay 3 0 (1 / 2) (demoDistributedTask 0 2) 0 2
    rfl (by norm_num) (by norm_num) (by norm_num)
  rw [h.1]
  norm_num

/-- Every run of `createTask` either throws with the state untouched or
persists-and-admits a task built with status `PENDING`. -/
theorem createTask_cases (env : SchedEnv) (input : TaskInput) (st : SchedState) :
    (∃ e, createTask env input st = (.error e, st)) ∨
    (∃ t, createTask env input st = persistAndSchedule env t st ∧
          t.status = .pending) := by
  unfold createTask
  cases hv : validateTaskConfig env.uriOk env.hostnameOk input.ty input.config with
  | error e => exact .inl ⟨e, rfl⟩
  | ok vcfg =>
      dsimp only
      cases hc : (buildTask env input vcfg).profileId == "" &&
          !((buildTask env input vcfg).ty == .warmup) with
      | false => exact .inr ⟨buildTask env input vcfg, rfl, rfl⟩
      | true =>
          cases hs : selectBestProfile (buildTask env input vcfg).config
              env.healthyProfiles with
          | error e => exact .inl ⟨e, rfl⟩
          | ok op =>
              cases op with
              | none => exact .inl ⟨.noHealthyProfiles, rfl⟩
              | some p =>
                  exact .inr ⟨{ buildTask env input vcfg with profileId := p.id },
                    rfl, rfl⟩

/-- Counterexample to claim C7 as stated: a submission whose config passes
validation (a well-formed `search` payload) is nevertheless NOT persisted —
with no profile supplied and no healthy profile available, `createTask`
throws and the store and queue stay empty. -/
theorem createTask_valid_not_persisted_cex :
    (validateTaskConfig envNoProfiles.uriOk envNoProfiles.hostnameOk
        demoSearchInput.ty demoSearchInput.config).isOk = true ∧
    createTask envNoProfiles demoSearchInput emptySt =
      (.error .noHealthyProfiles, emptySt) := ⟨rfl, rfl⟩

/-- Claim C7 (amended): a submission failing validation throws that
validation error with the store and queue untouched (so it never reaches
the queue's retry machinery); in fact every `createTask` error — including
the no-healthy-profile capacity error that claim C7 overlooked — leaves
the state unchanged; and every successful submission appends exactly one
`PENDING` job to the store, admits it per its schedule descriptor, and
returns it. -/
theorem createTask_atomic (env : SchedEnv) (input : TaskInput) (st : SchedState) :
    (∀ e, validateTaskConfig env.uriOk env.hostnameOk input.ty input.config =
        .error e → createTask env input st = (.error e, st)) ∧
    (∀ e, (createTask env input st).1 = .error e →
        (createTask env input st).2 = st) ∧
    (∀ t, (createTask env input st).1 = .ok t →
        t.status = .pending ∧
        (createTask env input st).2.store = st.store ++ [t] ∧
        (createTask env input st).2.queue =
          scheduleTask env.retryAttempts env.now env.rand t st.queue) := by
  refine ⟨?_, ?_, ?_⟩
  · intro e hv
    unfold createTask
    rw [hv]
  · intro e he
    rcases createTask_cases env input st with ⟨e', heq⟩ | ⟨t, heq, _⟩
    · rw [heq]
    · rw [heq] at he
      simp [persistAndSchedule] at he
  · intro t hok
    rcases createTask_cases env input st with ⟨e, heq⟩ | ⟨t', heq, hstat⟩
    · rw [heq] at hok
      simp at hok
    · rw [heq] at hok ⊢
      simp only [persistAndSchedule, Except.ok.injEq] at hok
      subst hok
      exact ⟨hstat, rfl, rfl⟩

/-- Witness for the amended C7: the concrete valid submission with one
healthy profile is persisted as the `PENDING` job `demoCreatedTask` and
admitted immediately. -/
theorem createTask_atomic_witness :
    demoCreatedTask.status = .pending ∧
    (createTask envOneProfile demoSearchInput emptySt).2.store =
      emptySt.store ++ [demoCreatedTask] ∧
    (createTask envOneProfile demoSearchInput emptySt).2.queue =
      scheduleTask envOneProfile.retryAttempts envOneProfile.now
        envOneProfile.rand demoCreatedTask emptySt.queue :=
  (createTask_atomic envOneProfile demoSearchInput emptySt).2.2
    demoCreatedTask rfl

/-- Claim C8 (status: confirmed).  `retryTask` on an unknown id throws the
not-found error naming that id; on a job whose status is not FAILED it
throws with the state untouched; and on a FAILED job it returns normally,
the stored record afterwards reads `PENDING` with zero attempts, and the
job is re-admitted per its schedule descriptor. -/
theorem retryTask_spec (env : SchedEnv) (id : String) (st : SchedState) :
    (findTask id st.store = none →
        retryTask env id st = (.error (.taskNotFound id), st)) ∧
    (∀ t, findTask id st.store = some t → t.status ≠ .failed →
        retryTask env id st = (.error .onlyFailedTasksRetryable, st)) ∧
    (∀ t, findTask id st.store = some t → t.status = .failed →
        (retryTask env id st).1 = .ok () ∧
        findTask id (retryTask env id st).2.store =
          some { t with status := .pending, attempts := 0 } ∧
        (retryTask env id st).2.queue =
          scheduleTask env.retryAttempts env.now env.rand
            { t with status := .pending, attempts := 0 } st.queue) := by
  refine ⟨?_, ?_, ?_⟩
  · intro h
    unfold retryTask
    rw [h]
  · intro t ht hs
    have hb : (t.status == .failed) = false := by
      simp [hs]
    unfold retryTask
    rw [ht]
    dsimp only
    rw [hb]
    rfl
  · intro t ht hs
    have hb : (t.status == .failed) = true := by
      simp [hs]
    have ht' : st.store.find? (fun x => x.id == id) = some t := ht
    refine ⟨?_, ?_, ?_⟩
    · unfold retryTask
      rw [ht]
      dsimp only
      rw [hb]
      rfl
    · unfold retryTask
      rw [ht]
      dsimp only
      rw [hb]
      exact updateFirst_find? (fun x => x.id == id)
        (fun x => { x with status := .pending, attempts := 0 })
        (fun x hx => hx) st.store t ht'
    · unfold retryTask
      rw [ht]
      dsimp only
      rw [hb]
      rfl

/-- Witness for C8 on a concrete FAILED job. -/
theorem retryTask_spec_witness :
    (retryTask envNoProfiles demoId demoStFailed).1 = .ok () ∧
    findTask demoId (retryTask envNoProfiles demoId demoStFailed).2.store =
      some { demoFailedTask with status := .pending, attempts := 0 } ∧
    (retryTask envNoProfiles demoId demoStFailed).2.queue =
      scheduleTask envNoProfiles.retryAttempts envNoProfiles.now
        envNoProfiles.rand { demoFailedTask with status := .pending, attempts := 0 }
        demoStFailed.queue :=
  (retryTask_spec envNoProfiles demoId demoStFailed).2.2
    demoFailedTask (by decide) rfl

/-- Updating the first match keeps an all-records property, provided the
update itself preserves it. -/
theorem updateFirst_all (Q p : Task → Bool) (f : Task → Task)
    (hf : ∀ t, Q t = true → Q (f t) = true) :
    ∀ l : List Task, l.all Q = true → (updateFirst p f l).all Q = true := by
  intro l
  induction l with
  | nil => intro h; exact h
  | cons a as ih =>
      intro h
      rw [List.all_cons, Bool.and_eq_true] at h
      obtain ⟨ha, has⟩ := h
      unfold updateFirst
      by_cases hpa : p a = true
      · rw [if_pos hpa, List.all_cons, Bool.and_eq_true]
        exact ⟨hf a ha, has⟩
      · rw [if_neg hpa, List.all_cons, Bool.and_eq_true]
        exact ⟨ha, ih has⟩

/-- No single scheduler operation can introduce a `SCHEDULED` stored
status: submissions write `PENDING`, cancellation writes `CANCELLED`,
retry writes `PENDING`, and the worker paths write `RUNNING`, `COMPLETED`
or `FAILED`. -/
theorem applyOp_no_scheduled (st : SchedState) (op : SchedOp)
    (h : st.store.all notScheduled = true) :
    (applyOp st op).store.all notScheduled = true := by
  cases op with
  | create env input =>
      show ((createTask env input st).2).store.all notScheduled = true
      rcases createTask_cases env input st with ⟨e, heq⟩ | ⟨t, heq, hstat⟩
      · rw [heq]; exact h
      · rw [heq]
        simp only [persistAndSchedule]
        rw [List.all_append, Bool.and_eq_true]
        refine ⟨h, ?_⟩
        simp [notScheduled, hstat]
  | cancel id =>
      show (cancelTask id st).store.all notScheduled = true
      unfold cancelTask
      apply updateFirst_all
      · intro x _
        rfl
      · exact h
  | retry env id =>
      show ((retryTask env id st).2).store.all notScheduled = true
      unfold retryTask
      cases hft : findTask id st.store with
      | none => exact h
      | some t =>
          dsimp only
          by_cases hb : (t.status == .failed) = true
          · rw [hb]
            simp only [Bool.not_true]
            rw [if_neg (by simp)]
            dsimp only
            apply updateFirst_all
            · intro x _
              rfl
            · exact h
          · rw [Bool.not_eq_true] at hb
            rw [hb]
            simpa using h
  | markRunning now id =>
      show (updateTaskStatus now id .running none st.store).all notScheduled = true
      unfold updateTaskStatus
      apply updateFirst_all
      · intro x _
        rfl
      · exact h
  | markFailedFinal now id err =>
      show (updateTaskStatus now id .failed
        (some err) st.store).all notScheduled = true
      unfold updateTaskStatus
      apply updateFirst_all
      · intro x _
        rfl
      · exact h
  | recordResult now id success =>
      show (updateTaskResult now id success st.store).all notScheduled = true
      unfold updateTaskResult
      apply updateFirst_all
      · intro x _
        cases success <;> rfl
      · exact h

/-- Claim C9 (status: confirmed).  Starting from an empty store, no
sequence of scheduler operations ever leaves a record in status
`SCHEDULED` — the status only takes the five written values — and
therefore the periodic re-admission scan, which selects `SCHEDULED`
records with a due `scheduledFor`, matches nothing. -/
theorem submit_never_scheduled (ops : List SchedOp) (q0 : Queue) (now : Int) :
    ((applyOps ops { store := [], queue := q0 }).store.all notScheduled = true) ∧
    scheduledScan now (applyOps ops { store := [], queue := q0 }).store = [] := by
  have hall : ∀ st : SchedState, st.store.all notScheduled = true →
      (applyOps ops st).store.all notScheduled = true := by
    induction ops with
    | nil => intro st h; exact h
    | cons op rest ih =>
        intro st h
        exact ih (applyOp st op) (applyOp_no_scheduled st op h)
  have hmain := hall { store := [], queue := q0 } rfl
  refine ⟨hmain, ?_⟩
  unfold scheduledScan
  apply List.filter_eq_nil_iff.mpr
  intro t htmem
  have hQ : notScheduled t = true := List.all_eq_true.mp hmain t htmem
  have hf : (t.status == .scheduled) = false := by
    simpa [notScheduled] using hQ
  simp [hf]

end SeoAuto
